import Mathlib

/-!
Shallow embedding of the data-synchronization layer of the weather
dashboard in src/src/App.tsx: the favorites slice, the dashboard
eviction effect, the search bar debounce, and the RTK Query forecast
cache as configured by the app (argument serialization, request
deduplication, keepUnusedDataFor retention, pollingInterval).
-/

namespace Weather

/-! ### Favorites slice (src/src/App.tsx lines 57-75)

The reducers operate on the ordered list of favorite city names.
Comparison is by JavaScript toLowerCase, modelled as String.toLower. -/

/-- JavaScript's toLowerCase on the city names used here, modelled as a
character-wise lowercase map. -/
def jsLower (s : String) : String :=
  String.mk (s.data.map Char.toLower)

/-- Case-insensitive equality used by the favorites slice:
c.toLowerCase() === city.toLowerCase(). -/
def lowerEq (a b : String) : Bool :=
  jsLower a == jsLower b

/-- addFavorite reducer: push city unless some existing entry matches it
case-insensitively (App.tsx lines 63-69). -/
def addFavorite (cities : List String) (city : String) : List String :=
  if cities.any (fun c => lowerEq c city) then cities else cities ++ [city]

/-- removeFavorite reducer: keep exactly the entries whose lowercase form
differs from the payload's lowercase form (App.tsx lines 70-73). -/
def removeFavorite (cities : List String) (city : String) : List String :=
  cities.filter (fun c => !(lowerEq c city))

/-- Case-insensitive uniqueness of a favorites list: no two entries share
a lowercase form. -/
def ciUnique (l : List String) : Prop :=
  l.Pairwise (fun a b => jsLower a ≠ jsLower b)

/-! ### Dashboard eviction effect (src/src/App.tsx lines 632-695)

WeatherDashboard keeps the focused selection (selectedCity) and an alert
message. Its useEffect at lines 650-657 reacts to isError of the
forecast query for the selected city: it removes that city from the
favorites, closes the modal (selectedCity := none) and sets the alert.
The error kind is never inspected by the code; a WeatherCard whose own
query errors (lines 526-538) only renders a manual Remove button. -/

/-- Error classification from the specification's taxonomy. The source
never distinguishes the two: its effect fires on isError alone. -/
inductive ErrorKind
  | transient
  | notFound
deriving DecidableEq

/-- State held by WeatherDashboard that the eviction effect touches. -/
structure DashState where
  favorites : List String
  selectedCity : Option String
  alertMessage : Option String
deriving DecidableEq

/-- Events that can reach the dashboard state. forecastError c k is the
forecast query for city c settling as failed with kind k;
cardRemoveClick is the manual Remove affordance on an errored card. -/
inductive DashEv
  | select (c : String)
  | closeModal
  | forecastError (c : String) (k : ErrorKind)
  | cardRemoveClick (c : String)
deriving DecidableEq

/-- Alert text built by the effect at App.tsx line 653. -/
def evictionNotice (c : String) : String :=
  "Could not find weather for " ++ c ++ ". It has been removed from favorites."

/-- One dashboard transition, as coded in WeatherDashboard: the
forecastError reaction fires only when the failing city is the current
selection, and it ignores the error kind (App.tsx lines 650-657). -/
def dashStep (s : DashState) : DashEv → DashState
  | DashEv.select c => { s with selectedCity := some c }
  | DashEv.closeModal => { s with selectedCity := none }
  | DashEv.forecastError c _ =>
      if s.selectedCity = some c then
        { favorites := removeFavorite s.favorites c,
          selectedCity := none,
          alertMessage := some (evictionNotice c) }
      else s
  | DashEv.cardRemoveClick c => { s with favorites := removeFavorite s.favorites c }

/-! ### Search bar (src/src/App.tsx lines 225-293)

The SearchBar keeps the query text. An effect (lines 233-240) runs on
every query change: React first runs the previous effect's cleanup
(clearTimeout of the pending debounce timer), then, if the new query is
longer than 2 characters, sets a 300ms timer whose callback triggers
the lazy search query. A dispatched lookup is never aborted; its result
lands in searchResults, which is never reset. The dropdown renders when
the input is focused and (query.length > 2 or searchResults is set)
(line 265). Time is in milliseconds. -/

/-- Timer created by the debounce effect for a given keystroke: set only
when the text is longer than 2 characters, due 300ms later, carrying the
text it will search for. -/
def mkTimer (t : Nat) (text : String) : Option (Nat × String) :=
  if text.length > 2 then some (t + 300, text) else none

/-- State of the SearchBar relevant to debounce and cancellation. -/
structure SearchState where
  query : String
  timer : Option (Nat × String)
  inFlight : Option String
  results : Option (List String)
  lookupLog : List String
deriving DecidableEq

/-- Fire the pending debounce timer if its deadline has been reached by
time t: the callback calls triggerSearch(query), dispatching a lookup. -/
def fireTimer (s : SearchState) (t : Nat) : SearchState :=
  match s.timer with
  | some (d, q) =>
      if d ≤ t then
        { s with timer := none, inFlight := some q, lookupLog := s.lookupLog ++ [q] }
      else s
  | none => s

/-- Events of the search pipeline: a keystroke setting the query text at
time t, the network delivering a result list for the in-flight lookup,
and plain passage of time with no input. -/
inductive SearchEv
  | keystroke (t : Nat) (text : String)
  | deliver (t : Nat) (res : List String)
  | quiesce (t : Nat)
deriving DecidableEq

/-- One step of the search pipeline. Any timer whose deadline has passed
fires before the event is processed (the JS event loop runs the due
timer callback first). A keystroke clears the previous timer (effect
cleanup) and installs a new one only for texts longer than 2 characters;
it touches neither the in-flight lookup nor the delivered results. -/
def searchStep (s : SearchState) : SearchEv → SearchState
  | SearchEv.keystroke t text =>
      let s1 := fireTimer s t
      { s1 with query := text, timer := mkTimer t text }
  | SearchEv.deliver t res =>
      let s1 := fireTimer s t
      match s1.inFlight with
      | some _ => { s1 with inFlight := none, results := some res }
      | none => s1
  | SearchEv.quiesce t => fireTimer s t

/-- Initial SearchBar state: empty query, no timer, no results. -/
def initSearch : SearchState :=
  { query := "", timer := none, inFlight := none, results := none, lookupLog := [] }

/-- Run a list of search events from the initial state. -/
def searchRun (evs : List SearchEv) : SearchState :=
  evs.foldl searchStep initSearch

/-- Dropdown visibility condition of App.tsx line 265:
isFocused and (query.length > 2 or searchResults present). -/
def dropdownVisible (s : SearchState) (focused : Bool) : Bool :=
  focused && (decide (s.query.length > 2) || s.results.isSome)

/-- Reference description of the debounce output: given the pending
timer and the remaining keystrokes, a query is dispatched exactly when
its text is longer than 2 characters and at least 300ms pass before the
next keystroke (or before the final quiet observation point). -/
def debAux (pend : Option (Nat × String)) (ks : List (Nat × String)) (last : Nat) :
    List String :=
  match pend, ks with
  | none, [] => []
  | some (d, q), [] => if d ≤ last then [q] else []
  | none, (t, x) :: rest => debAux (mkTimer t x) rest last
  | some (d, q), (t, x) :: rest =>
      (if d ≤ t then [q] else []) ++ debAux (mkTimer t x) rest last

/-- Keystroke event from a timed pair. -/
def keystrokeEv (p : Nat × String) : SearchEv :=
  SearchEv.keystroke p.1 p.2

/-! ### Forecast cache (RTK Query as configured in src/src/App.tsx lines 96-125)

The getForecast endpoint (lines 105-109) takes an argument object
(city, optional days defaulting to 7 inside the query function) and is
configured with keepUnusedDataFor: 60 (seconds). The call sites are
WeatherCard (line 509, argument object with only city, no
pollingInterval), DetailedViewModal (lines 405-408, city and days: 7,
pollingInterval 60000ms) and WeatherDashboard (lines 646-648, city and
days: 7, no pollingInterval).

The model below embeds RTK Query's documented cache semantics as this
app configures them: one cache entry per serialized argument object
(defaultSerializeQueryArgs: endpoint name plus JSON of the args, which
is case-sensitive and includes the days field only when present); a new
subscriber to a pending or fulfilled entry is served from the cache and
issues no request; a subscriber to an absent or rejected entry issues
exactly one request; an entry is dropped keepUnusedDataFor seconds
after its last subscriber leaves; a poll timer exists for an entry only
while some subscriber declares a nonzero pollingInterval, and is
cleared synchronously when the last such subscriber leaves. Times are
in seconds. -/

/-- Placeholder API key constant of App.tsx line 21. -/
def WEATHER_API_KEY : String := "YOUR_API_KEY_HERE"

/-- Argument object passed to useGetForecastQuery. days is none when
the call site omits the field (WeatherCard) and some 7 for the detail
and dashboard call sites. -/
structure ForecastArgs where
  city : String
  days : Option Nat
deriving DecidableEq

/-- Forecast request URL built by the getForecast query function
(App.tsx line 106); the days parameter defaults to 7. -/
def forecastUrl (a : ForecastArgs) : String :=
  "forecast.json?key=" ++ WEATHER_API_KEY ++ "&q=" ++ a.city ++ "&days="
    ++ toString (a.days.getD 7) ++ "&aqi=no&alerts=no"

/-- RTK Query's default cache key for the endpoint: the endpoint name
applied to the JSON serialization of the argument object. The days
field appears only when the call site passed it. (Braces are written as
escape codes.) -/
def serializeForecastArgs (a : ForecastArgs) : String :=
  match a.days with
  | none => "getForecast(\x7b\"city\":\"" ++ a.city ++ "\"\x7d)"
  | some d =>
      "getForecast(\x7b\"city\":\"" ++ a.city ++ "\",\"days\":" ++ toString d ++ "\x7d)"

/-- Argument object used by a WeatherCard (App.tsx line 509). -/
def cardArgs (c : String) : ForecastArgs := { city := c, days := none }

/-- Argument object used by DetailedViewModal and by the dashboard's
error probe (App.tsx lines 405 and 646). -/
def detailArgs (c : String) : ForecastArgs := { city := c, days := some 7 }

/-- Forecast payload; only the current temperature matters to the
claims. -/
structure Payload where
  temp_c : Int
deriving DecidableEq

/-- Status of a cache entry's latest request. -/
inductive QStatus
  | pending
  | fulfilled
  | rejected
deriving DecidableEq

/-- One cache entry. subs holds one pollingInterval per current
subscriber (0 meaning the subscriber polls never); unusedSince is the
time the last subscriber left, arming the keepUnusedDataFor removal;
nextPollAt is the deadline of the entry's poll timer, present only
while some subscriber polls. -/
structure CacheEntry where
  args : ForecastArgs
  status : QStatus
  data : Option Payload
  fetchedAt : Option Nat
  subs : List Nat
  unusedSince : Option Nat
  nextPollAt : Option Nat
deriving DecidableEq

/-- Cache key of an entry. -/
def entryKey (e : CacheEntry) : String :=
  serializeForecastArgs e.args

/-- One issued network request. -/
structure Fetch where
  key : String
  url : String
  issuedAt : Nat
deriving DecidableEq

/-- The cache table, the log of issued requests, and the clock. -/
structure CacheState where
  entries : List CacheEntry
  fetchLog : List Fetch
  now : Nat
deriving DecidableEq

/-- Empty cache at time zero. -/
def initState : CacheState :=
  { entries := [], fetchLog := [], now := 0 }

/-- Look up the entry stored under a cache key. -/
def getEntry (s : CacheState) (key : String) : Option CacheEntry :=
  s.entries.find? (fun e => entryKey e == key)

/-- Replace the first entry stored under the key, appending when no
entry matches. -/
def replaceOrAppend : List CacheEntry → String → CacheEntry → List CacheEntry
  | [], _, e => [e]
  | x :: xs, k, e =>
      if entryKey x == k then e :: xs else x :: replaceOrAppend xs k e

/-- Store an entry under a key, leaving the log and clock alone. -/
def setEntry (s : CacheState) (key : String) (e : CacheEntry) : CacheState :=
  { s with entries := replaceOrAppend s.entries key e }

/-- Lowest nonzero polling interval among the subscribers, 0 when no
subscriber polls. -/
def minPoll (subs : List Nat) : Nat :=
  match subs.filter (fun p => p != 0) with
  | [] => 0
  | x :: xs => xs.foldl Nat.min x

/-- Poll deadline after a subscription change: no deadline when nobody
polls; the existing deadline is kept when the lowest interval is
unchanged; a changed lowest interval restarts the timer from now. -/
def newPollDeadline (now : Nat) (oldSubs subs : List Nat) (old : Option Nat) :
    Option Nat :=
  let m := minPoll subs
  if m = 0 then none
  else if minPoll oldSubs = m then some (old.getD (now + m))
  else some (now + m)

/-- Record of the request a subscription or poll issues. -/
def fetchOf (a : ForecastArgs) (t : Nat) : Fetch :=
  { key := serializeForecastArgs a, url := forecastUrl a, issuedAt := t }

/-- A component mounts a useGetForecastQuery subscription with the given
pollingInterval (0 = none). An absent entry is created pending with one
request issued; an existing pending or fulfilled entry serves the new
subscriber from the cache with no request; a rejected entry is retried
with one request. -/
def subscribe (s : CacheState) (a : ForecastArgs) (poll : Nat) : CacheState :=
  match getEntry s (serializeForecastArgs a) with
  | none =>
      let e : CacheEntry :=
        { args := a, status := QStatus.pending, data := none, fetchedAt := none,
          subs := [poll], unusedSince := none,
          nextPollAt := if poll = 0 then none else some (s.now + poll) }
      { entries := s.entries ++ [e],
        fetchLog := s.fetchLog ++ [fetchOf a s.now],
        now := s.now }
  | some e =>
      let subs := poll :: e.subs
      let e2 : CacheEntry :=
        { e with subs := subs, unusedSince := none,
                 status := if e.status = QStatus.rejected then QStatus.pending else e.status,
                 nextPollAt := newPollDeadline s.now e.subs subs e.nextPollAt }
      let s2 := setEntry s (serializeForecastArgs a) e2
      if e.status = QStatus.rejected then
        { s2 with fetchLog := s2.fetchLog ++ [fetchOf a s.now] }
      else s2

/-- A component unmounts its subscription. When the last subscriber
leaves, the keepUnusedDataFor removal is armed; the poll timer is
dropped synchronously as soon as no remaining subscriber polls. -/
def unsubscribe (s : CacheState) (a : ForecastArgs) (poll : Nat) : CacheState :=
  match getEntry s (serializeForecastArgs a) with
  | none => s
  | some e =>
      let subs := e.subs.erase poll
      let e2 : CacheEntry :=
        { e with subs := subs,
                 unusedSince := if subs.isEmpty then some s.now else e.unusedSince,
                 nextPollAt := newPollDeadline s.now e.subs subs e.nextPollAt }
      setEntry s (serializeForecastArgs a) e2

/-- The outstanding request for the entry resolves successfully: the
entry becomes fulfilled with the payload and a fresh timestamp. -/
def fulfill (s : CacheState) (a : ForecastArgs) (p : Payload) : CacheState :=
  match getEntry s (serializeForecastArgs a) with
  | none => s
  | some e =>
      setEntry s (serializeForecastArgs a)
        { e with status := QStatus.fulfilled, data := some p, fetchedAt := some s.now }

/-- The outstanding request for the entry fails: the entry becomes
rejected (the last data, if any, is retained). -/
def rejectFetch (s : CacheState) (a : ForecastArgs) : CacheState :=
  match getEntry s (serializeForecastArgs a) with
  | none => s
  | some e =>
      setEntry s (serializeForecastArgs a) { e with status := QStatus.rejected }

/-- Advance one entry to the given time: an entry with no subscribers is
removed 60 seconds (keepUnusedDataFor) after its last unsubscribe; an
entry whose poll deadline has passed issues one poll request and
re-arms the timer. Returns the surviving entry and the requests it
issued. -/
def tickOne (now : Nat) (e : CacheEntry) : Option (CacheEntry × List Fetch) :=
  if e.subs.isEmpty then
    match e.unusedSince with
    | some u => if u + 60 ≤ now then none else some (e, [])
    | none => some (e, [])
  else
    match e.nextPollAt with
    | some t =>
        if t ≤ now then
          some ({ e with status := QStatus.pending, nextPollAt := some (t + minPoll e.subs) },
                [{ key := entryKey e, url := forecastUrl e.args, issuedAt := t }])
        else some (e, [])
    | none => some (e, [])

/-- Advance the clock by dt seconds, applying entry removal and poll
firing to every entry. -/
def tick (s : CacheState) (dt : Nat) : CacheState :=
  let now := s.now + dt
  let stepped := s.entries.filterMap (tickOne now)
  { entries := stepped.map Prod.fst,
    fetchLog := s.fetchLog ++ (stepped.map Prod.snd).flatten,
    now := now }

/-- Snapshot read for a city as a dashboard card would issue it: the
payload cached under the card's serialized arguments, if any. -/
def getSnapshot (s : CacheState) (city : String) : Option Payload :=
  (getEntry s (serializeForecastArgs (cardArgs city))).bind (fun e => e.data)

/-! ### Theorems for the claims -/

/-- C9: removing a name with no case-insensitive match in the favorites
list is a no-op, adding a name that already has a case-insensitive match
is a no-op, and both operations preserve case-insensitive uniqueness of
the list. -/
theorem C9_favorites_idempotent (l : List String) (name : String) :
    ((∀ c ∈ l, jsLower c ≠ jsLower name) → removeFavorite l name = l)
    ∧ ((∃ c ∈ l, jsLower c = jsLower name) → addFavorite l name = l)
    ∧ (ciUnique l → ciUnique (removeFavorite l name) ∧ ciUnique (addFavorite l name)) := by
  refine ⟨?_, ?_, ?_⟩
  · intro h
    apply List.filter_eq_self.2
    intro c hc
    simp [lowerEq, h c hc]
  · rintro ⟨c, hc, hceq⟩
    unfold addFavorite
    rw [if_pos]
    exact List.any_eq_true.2 ⟨c, hc, by simp [lowerEq, hceq]⟩
  · intro h
    constructor
    · exact List.Pairwise.filter _ h
    · unfold addFavorite
      by_cases hany : l.any (fun c => lowerEq c name) = true
      · rw [if_pos hany]; exact h
      · rw [if_neg hany]
        unfold ciUnique at h
        unfold ciUnique
        rw [List.pairwise_append]
        refine ⟨h, List.pairwise_singleton _ _, ?_⟩
        intro a ha b hb
        have hb1 : b = name := by simpa using hb
        subst hb1
        intro heq
        exact hany (List.any_eq_true.2 ⟨a, ha, by simp [lowerEq, heq]⟩)

/-- C9 witness: concrete no-op removal and no-op insertion on the default
favorites list. -/
theorem C9_witness :
    removeFavorite ["London", "New York", "Tokyo"] "Paris" = ["London", "New York", "Tokyo"]
    ∧ addFavorite ["London", "New York", "Tokyo"] "TOKYO" = ["London", "New York", "Tokyo"] :=
  ⟨(C9_favorites_idempotent ["London", "New York", "Tokyo"] "Paris").1 (by decide),
   (C9_favorites_idempotent ["London", "New York", "Tokyo"] "TOKYO").2.1 (by decide)⟩

/-- C10: adding a name with no case-insensitive match appends it at the
end; addFavorite keeps the old list as a prefix, and removeFavorite keeps
a sublist of the old list, so retained entries keep their values and
their relative order. -/
theorem C10_favorites_frame (l : List String) (name : String) :
    ((∀ c ∈ l, jsLower c ≠ jsLower name) → addFavorite l name = l ++ [name])
    ∧ (∃ t, l ++ t = addFavorite l name)
    ∧ List.Sublist (removeFavorite l name) l := by
  refine ⟨?_, ?_, ?_⟩
  · intro h
    unfold addFavorite
    rw [if_neg]
    intro hany
    obtain ⟨c, hc, hceq⟩ := List.any_eq_true.1 hany
    exact h c hc (by simpa [lowerEq] using hceq)
  · unfold addFavorite
    by_cases hany : l.any (fun c => lowerEq c name) = true
    · rw [if_pos hany]; exact ⟨[], by simp⟩
    · rw [if_neg hany]; exact ⟨[name], rfl⟩
  · exact List.filter_sublist l

/-- C10 witness: concrete append of a fresh favorite at the end. -/
theorem C10_witness :
    addFavorite ["London", "New York"] "Tokyo" = ["London", "New York"] ++ ["Tokyo"] :=
  (C10_favorites_frame ["London", "New York"] "Tokyo").1 (by decide)

/-- C2 counterexample: the favorite "Atlantis" is in the FavoritesSet but
not the focused selection; its forecast fetch resolves as NotFound, yet
the dashboard state is unchanged and "Atlantis" is still a favorite — the
claimed removal for any key currently in the FavoritesSet does not
happen. -/
theorem C2_cex_unfocused_favorite_not_evicted :
    dashStep (⟨["Atlantis", "London"], none, none⟩ : DashState)
        (DashEv.forecastError "Atlantis" ErrorKind.notFound)
      = (⟨["Atlantis", "London"], none, none⟩ : DashState)
    ∧ "Atlantis" ∈ (dashStep (⟨["Atlantis", "London"], none, none⟩ : DashState)
        (DashEv.forecastError "Atlantis" ErrorKind.notFound)).favorites := by
  exact ⟨by decide, by decide⟩

/-- C2 (amended): a forecast failure for the currently focused selection
(of any kind — the code never inspects the kind) removes that key from
the favorites (after which no case-insensitive match remains, so the
removal cannot fire twice), closes the focused view, and sets the
user-facing notice naming the location; a failure for a key that is not
the focused selection leaves the dashboard state entirely unchanged. -/
theorem C2_eviction_fires_only_for_focused_key (s : DashState) (c : String) (k : ErrorKind) :
    (s.selectedCity = some c →
       (dashStep s (DashEv.forecastError c k)).favorites = removeFavorite s.favorites c
       ∧ (∀ x ∈ (dashStep s (DashEv.forecastError c k)).favorites, jsLower x ≠ jsLower c)
       ∧ (dashStep s (DashEv.forecastError c k)).selectedCity = none
       ∧ (dashStep s (DashEv.forecastError c k)).alertMessage = some (evictionNotice c))
    ∧ (s.selectedCity ≠ some c → dashStep s (DashEv.forecastError c k) = s) := by
  constructor
  · intro h
    refine ⟨by simp [dashStep, h], ?_, by simp [dashStep, h], by simp [dashStep, h]⟩
    intro x hx
    simp only [dashStep, if_pos h] at hx
    have := List.of_mem_filter hx
    simpa [lowerEq] using this
  · intro h
    simp [dashStep, h]

/-- C2 witness: with "Atlantis" focused, a NotFound failure removes it,
closes the view and raises the notice; with nothing focused the same
failure is a no-op. -/
theorem C2_witness :
    ((dashStep (⟨["Atlantis", "London"], some "Atlantis", none⟩ : DashState) (DashEv.forecastError "Atlantis" ErrorKind.notFound)).favorites
        = removeFavorite ["Atlantis", "London"] "Atlantis"
      ∧ (dashStep (⟨["Atlantis", "London"], some "Atlantis", none⟩ : DashState) (DashEv.forecastError "Atlantis" ErrorKind.notFound)).selectedCity
        = none
      ∧ (dashStep (⟨["Atlantis", "London"], some "Atlantis", none⟩ : DashState) (DashEv.forecastError "Atlantis" ErrorKind.notFound)).alertMessage
        = some (evictionNotice "Atlantis"))
    ∧ dashStep (⟨["Atlantis"], some "London", none⟩ : DashState) (DashEv.forecastError "Atlantis" ErrorKind.notFound)
        = (⟨["Atlantis"], some "London", none⟩ : DashState) := by
  constructor
  · have h := (C2_eviction_fires_only_for_focused_key
      (⟨["Atlantis", "London"], some "Atlantis", none⟩ : DashState) "Atlantis" ErrorKind.notFound).1 rfl
    exact ⟨h.1, h.2.2.1, h.2.2.2⟩
  · exact (C2_eviction_fires_only_for_focused_key
      (⟨["Atlantis"], some "London", none⟩ : DashState) "Atlantis" ErrorKind.notFound).2 (by decide)

/-- C5 counterexample: "London" is a favorite and the focused selection;
a Transient fetch failure for it evicts it from the favorites — contrary
to the claim that a Transient failure never triggers eviction. -/
theorem C5_cex_focused_transient_evicts :
    (dashStep (⟨["London"], some "London", none⟩ : DashState)
        (DashEv.forecastError "London" ErrorKind.transient)).favorites = []
    ∧ "London" ∉ (dashStep (⟨["London"], some "London", none⟩ : DashState)
        (DashEv.forecastError "London" ErrorKind.transient)).favorites := by
  exact ⟨by decide, by decide⟩

/-- C5 (amended): a Transient failure for a key that is not the focused
selection changes nothing — the key stays a favorite and, the entry being
rejected, the next subscribe to it issues a retry fetch; but for the
focused selection the code removes the key on any failure, Transient
included. -/
theorem C5_transient_eviction_depends_on_focus (s : DashState) (c : String)
    (sc : CacheState) (a : ForecastArgs) (e : CacheEntry) (poll : Nat) :
    (s.selectedCity ≠ some c → dashStep s (DashEv.forecastError c ErrorKind.transient) = s)
    ∧ (s.selectedCity = some c →
        (dashStep s (DashEv.forecastError c ErrorKind.transient)).favorites
          = removeFavorite s.favorites c)
    ∧ (getEntry sc (serializeForecastArgs a) = some e → e.status = QStatus.rejected →
        (subscribe sc a poll).fetchLog = sc.fetchLog ++ [fetchOf a sc.now]) := by
  refine ⟨?_, ?_, ?_⟩
  · intro h
    simp [dashStep, h]
  · intro h
    simp [dashStep, h]
  · intro h hrej
    simp [subscribe, h, hrej, setEntry]

/-- C5 witness: a Transient failure for non-focused "Atlantis" leaves the
state unchanged, and a subscribe to a rejected entry issues exactly one
retry fetch. -/
theorem C5_witness :
    dashStep (⟨["Atlantis"], none, none⟩ : DashState)
        (DashEv.forecastError "Atlantis" ErrorKind.transient)
      = (⟨["Atlantis"], none, none⟩ : DashState)
    ∧ (subscribe (rejectFetch (subscribe initState (cardArgs "Oslo") 0) (cardArgs "Oslo"))
          (cardArgs "Oslo") 0).fetchLog
        = (rejectFetch (subscribe initState (cardArgs "Oslo") 0) (cardArgs "Oslo")).fetchLog
          ++ [fetchOf (cardArgs "Oslo")
                (rejectFetch (subscribe initState (cardArgs "Oslo") 0) (cardArgs "Oslo")).now] := by
  constructor
  · exact (C5_transient_eviction_depends_on_focus
      (⟨["Atlantis"], none, none⟩ : DashState) "Atlantis"
      initState (cardArgs "Oslo")
      { args := cardArgs "Oslo", status := QStatus.rejected, data := none, fetchedAt := none,
        subs := [0], unusedSince := none, nextPollAt := none } 0).1 (by decide)
  · exact (C5_transient_eviction_depends_on_focus
      (⟨["Atlantis"], none, none⟩ : DashState) "Atlantis"
      (rejectFetch (subscribe initState (cardArgs "Oslo") 0) (cardArgs "Oslo")) (cardArgs "Oslo")
      { args := cardArgs "Oslo", status := QStatus.rejected, data := none, fetchedAt := none,
        subs := [0], unusedSince := none, nextPollAt := none } 0).2.2 (by decide) rfl

/-- Auxiliary characterization of the debounce machine: running any
sequence of keystrokes followed by a quiet observation point appends to
the dispatch log exactly the queries described by debAux, starting from
the state's current pending timer. -/
theorem searchRun_foldl_debounce (ks : List (Nat × String)) :
    ∀ (s : SearchState) (last : Nat),
      (List.foldl searchStep s (ks.map keystrokeEv ++ [SearchEv.quiesce last])).lookupLog
        = s.lookupLog ++ debAux s.timer ks last := by
  induction ks with
  | nil =>
      intro s last
      simp only [List.map_nil, List.nil_append, List.foldl_cons, List.foldl_nil]
      cases htimer : s.timer with
      | none => simp [searchStep, fireTimer, htimer, debAux]
      | some dq =>
          obtain ⟨d, q⟩ := dq
          by_cases hd : d ≤ last
          · simp [searchStep, fireTimer, htimer, hd, debAux]
          · simp [searchStep, fireTimer, htimer, hd, debAux]
  | cons p rest ih =>
      obtain ⟨t, x⟩ := p
      intro s last
      simp only [List.map_cons, List.cons_append, List.foldl_cons]
      rw [ih]
      cases htimer : s.timer with
      | none =>
          simp [searchStep, fireTimer, keystrokeEv, htimer, debAux]
      | some dq =>
          obtain ⟨d, q⟩ := dq
          by_cases hd : d ≤ t
          · simp [searchStep, fireTimer, keystrokeEv, htimer, hd, debAux]
          · simp [searchStep, fireTimer, keystrokeEv, htimer, hd, debAux]

/-- C6: the debounce of the search input — over any sequence of timed
keystrokes followed by quiet, the dispatched lookups are exactly the
entries whose text is at least 3 characters long and which are followed
by a full 300ms with no further keystroke (each earlier keystroke's
timer having been restarted by the next one); in particular typing
"Lon", "Lond", "London" at 0ms, 100ms, 200ms issues exactly one lookup,
for "London". -/
theorem C6_debounce_single_lookup :
    (∀ (ks : List (Nat × String)) (last : Nat),
        (searchRun (ks.map keystrokeEv ++ [SearchEv.quiesce last])).lookupLog
          = debAux none ks last)
    ∧ (searchRun [SearchEv.keystroke 0 "Lon", SearchEv.keystroke 100 "Lond",
          SearchEv.keystroke 200 "London", SearchEv.quiesce 1000]).lookupLog
        = ["London"] := by
  constructor
  · intro ks last
    have h := searchRun_foldl_debounce ks initSearch last
    simpa [searchRun, initSearch] using h
  · decide

/-- C7 counterexample: typing "Lond" and letting the 300ms debounce
dispatch the lookup, then shortening the input to "Lo" before the lookup
resolves — the in-flight lookup is not cancelled, its result is stored
when it arrives, and with the input focused the stale results remain
displayed even though the query is shorter than 3 characters. -/
theorem C7_cex_short_query_keeps_results :
    (searchRun [SearchEv.keystroke 0 "Lond", SearchEv.keystroke 350 "Lo",
        SearchEv.deliver 400 ["London"]]).query = "Lo"
    ∧ (searchRun [SearchEv.keystroke 0 "Lond", SearchEv.keystroke 350 "Lo",
        SearchEv.deliver 400 ["London"]]).results = some ["London"]
    ∧ dropdownVisible (searchRun [SearchEv.keystroke 0 "Lond", SearchEv.keystroke 350 "Lo",
        SearchEv.deliver 400 ["London"]]) true = true
    ∧ (searchRun [SearchEv.keystroke 0 "Lond", SearchEv.keystroke 350 "Lo",
        SearchEv.deliver 400 ["London"]]).lookupLog = ["Lond"] := by
  refine ⟨by decide, by decide, by decide, by decide⟩

/-- C7 (amended): a keystroke shorter than 3 characters schedules no
lookup and cancels the pending debounce timer (so a lookup that was not
yet dispatched never fires), but it does not cancel an already
dispatched in-flight lookup and it does not clear the stored result
list. -/
theorem C7_short_input_behavior (s : SearchState) (t : Nat) (text : String)
    (hshort : text.length ≤ 2) :
    ((searchStep s (SearchEv.keystroke t text)).timer = none)
    ∧ ((searchStep s (SearchEv.keystroke t text)).results = s.results)
    ∧ (∀ d q, s.timer = some (d, q) → t < d →
        (searchStep s (SearchEv.keystroke t text)).lookupLog = s.lookupLog
        ∧ (searchStep s (SearchEv.keystroke t text)).inFlight = s.inFlight) := by
  have hlen : ¬ text.length > 2 := by omega
  refine ⟨?_, ?_, ?_⟩
  · simp [searchStep, mkTimer, hlen]
  · simp only [searchStep]
    unfold fireTimer
    cases htimer : s.timer with
    | none => rfl
    | some dq =>
        obtain ⟨d, q⟩ := dq
        by_cases hd : d ≤ t <;> simp [hd]
  · intro d q htimer hlt
    have hnot : ¬ d ≤ t := by omega
    simp [searchStep, fireTimer, htimer, hnot]

/-- C7 witness: with a pending 300ms timer for "Lond" and an unrelated
result list stored, a keystroke to "Lo" at 100ms cancels the timer,
dispatches nothing, keeps the in-flight state and keeps the results. -/
theorem C7_witness :
    ((searchStep (⟨"Lond", some (300, "Lond"), none, some ["Paris"], []⟩ : SearchState)
        (SearchEv.keystroke 100 "Lo")).timer = none)
    ∧ ((searchStep (⟨"Lond", some (300, "Lond"), none, some ["Paris"], []⟩ : SearchState)
        (SearchEv.keystroke 100 "Lo")).results
          = (⟨"Lond", some (300, "Lond"), none, some ["Paris"], []⟩ : SearchState).results)
    ∧ ((searchStep (⟨"Lond", some (300, "Lond"), none, some ["Paris"], []⟩ : SearchState)
        (SearchEv.keystroke 100 "Lo")).lookupLog
          = (⟨"Lond", some (300, "Lond"), none, some ["Paris"], []⟩ : SearchState).lookupLog)
    ∧ ((searchStep (⟨"Lond", some (300, "Lond"), none, some ["Paris"], []⟩ : SearchState)
        (SearchEv.keystroke 100 "Lo")).inFlight
          = (⟨"Lond", some (300, "Lond"), none, some ["Paris"], []⟩ : SearchState).inFlight) := by
  have h := C7_short_input_behavior
    (⟨"Lond", some (300, "Lond"), none, some ["Paris"], []⟩ : SearchState) 100 "Lo" (by decide)
  have h3 := h.2.2 300 "Lond" rfl (by decide)
  exact ⟨h.1, h.2.1, h3.1, h3.2⟩

/-- Storing an entry under a key that is already present makes the
lookup for that key return the new entry. -/
theorem find_replaceOrAppend (es : List CacheEntry) (k : String) (e e2 : CacheEntry)
    (h : es.find? (fun x => entryKey x == k) = some e)
    (h2 : (entryKey e2 == k) = true) :
    (replaceOrAppend es k e2).find? (fun x => entryKey x == k) = some e2 := by
  induction es with
  | nil => simp at h
  | cons x xs ih =>
      by_cases hx : (entryKey x == k) = true
      · simp [replaceOrAppend, hx, List.find?_cons, h2]
      · rw [List.find?_cons_of_neg _ (by simpa using hx)] at h
        simp [replaceOrAppend, hx, List.find?_cons_of_neg, ih h]

/-- A successful key lookup pins down the entry's key. -/
theorem entryKey_of_getEntry (s : CacheState) (k : String) (e : CacheEntry)
    (h : getEntry s k = some e) : (entryKey e == k) = true := by
  unfold getEntry at h
  have hp := List.find?_some h
  exact hp

/-- Concrete cache run for C1: a dashboard card and the detail view both
subscribe for London while the first request is still unresolved. -/
def c1State : CacheState :=
  subscribe (subscribe initState (cardArgs "London") 0) (detailArgs "London") 0

/-- C1 counterexample: the WeatherCard argument object (city only) and
the DetailedViewModal argument object (city and days) serialize to
different cache keys, so subscribing both while the first request is
unresolved issues two network requests — for the very same URL — not the
one request the claim asserts. -/
theorem C1_cex_card_detail_two_fetches :
    c1State.fetchLog.length = 2
    ∧ ¬ c1State.fetchLog.length = 1
    ∧ serializeForecastArgs (cardArgs "London") ≠ serializeForecastArgs (detailArgs "London")
    ∧ forecastUrl (cardArgs "London") = forecastUrl (detailArgs "London") := by
  refine ⟨by decide, by decide, by decide, by decide⟩

/-- C1 (amended): deduplication is per serialized argument object: any
subscriber arriving while the entry for its exact arguments is pending
issues no request (it attaches to the in-flight one); but the dashboard
card and the detail view use different argument objects for the same
city, so together they issue two requests, albeit for the same URL. -/
theorem C1_dedup_per_serialized_args
    (s : CacheState) (a : ForecastArgs) (poll : Nat) (e : CacheEntry)
    (h : getEntry s (serializeForecastArgs a) = some e)
    (hp : e.status = QStatus.pending) :
    ((subscribe s a poll).fetchLog = s.fetchLog)
    ∧ c1State.fetchLog.length = 2
    ∧ c1State.fetchLog.map Fetch.url
        = [forecastUrl (cardArgs "London"), forecastUrl (detailArgs "London")] := by
  refine ⟨?_, by decide, by decide⟩
  simp [subscribe, h, hp, setEntry]

/-- C1 witness: a second card subscribing to London while the first
card's request is pending issues no further request. -/
theorem C1_witness :
    (subscribe (subscribe initState (cardArgs "London") 0) (cardArgs "London") 0).fetchLog
      = (subscribe initState (cardArgs "London") 0).fetchLog :=
  (C1_dedup_per_serialized_args (subscribe initState (cardArgs "London") 0)
      (cardArgs "London") 0
      { args := cardArgs "London", status := QStatus.pending, data := none,
        fetchedAt := none, subs := [0], unusedSince := none, nextPollAt := none }
      (by decide) rfl).1

/-- Concrete cache run for C3: London is fetched at time 0, a subscriber
stays mounted, and the clock advances to 100 seconds, so the cached data
is 100 seconds old — well past the alleged 60-second freshness window. -/
def c3State : CacheState :=
  tick (fulfill (subscribe initState (cardArgs "London") 0) (cardArgs "London")
    { temp_c := 18 }) 100

/-- C3: evaluation at the failing input — the cached London entry is 100
seconds old (now = 100, fetchedAt = 0, exceeding the 60-second window),
yet a new subscribe issues no new request at all: the keepUnusedDataFor
value 60 only schedules removal of entries without subscribers and
enforces no freshness on subscribe, contrary to the code's own comment. -/
theorem C3_stale_subscribe_issues_no_fetch :
    c3State.now = 100
    ∧ (getEntry c3State (serializeForecastArgs (cardArgs "London"))).map CacheEntry.fetchedAt
        = some (some 0)
    ∧ (subscribe c3State (cardArgs "London") 0).fetchLog = c3State.fetchLog
    ∧ c3State.fetchLog.length = 1 := by
  refine ⟨by decide, by decide, by decide, by decide⟩

/-- Concrete cache run for C4: a lone dashboard card subscribes to
London (no pollingInterval), the request succeeds, and 130 seconds pass
in two ticks. -/
def c4CardState : CacheState :=
  tick (tick (fulfill (subscribe initState (cardArgs "London") 0) (cardArgs "London")
    { temp_c := 18 }) 65) 65

/-- C4 counterexample: the dashboard card keeps its subscription for 130
seconds, yet only the initial request is ever issued — no 60-second
refresh is scheduled for a card subscriber, because WeatherCard's query
has no pollingInterval. -/
theorem C4_cex_card_never_polls :
    c4CardState.fetchLog.length = 1 := by
  decide

/-- Concrete cache run for C4: the detail view subscribes with its
60-second pollingInterval, the request succeeds, and 60 seconds pass. -/
def c4DetailState : CacheState :=
  tick (fulfill (subscribe initState (detailArgs "Paris") 60) (detailArgs "Paris")
    { temp_c := 10 }) 60

/-- Concrete cache run for C4: the detail view unsubscribes right after
its request succeeds, then 59 more seconds pass. -/
def c4CancelState : CacheState :=
  tick (unsubscribe (fulfill (subscribe initState (detailArgs "Paris") 60)
    (detailArgs "Paris") { temp_c := 10 }) (detailArgs "Paris") 60) 59

/-- Entries with no poll deadline contribute no request on a tick. -/
theorem tick_no_poll_entries (es : List CacheEntry) (now : Nat)
    (h : ∀ x ∈ es, x.nextPollAt = none) :
    ((es.filterMap (tickOne now)).map Prod.snd).flatten = [] := by
  induction es with
  | nil => simp
  | cons x xs ih =>
      have hx := h x (by simp)
      have hxs := ih (fun y hy => h y (by simp [hy]))
      by_cases hsub : x.subs.isEmpty = true
      · cases hu : x.unusedSince with
        | none => simp [tickOne, hsub, hu, hxs]
        | some u =>
            by_cases hle : u + 60 ≤ now
            · simp [tickOne, hsub, hu, hle, hxs]
            · simp [tickOne, hsub, hu, hle, hxs]
      · simp [tickOne, hsub, hx, hxs]

/-- C4 (amended): only a subscriber that declares a pollingInterval (the
open detail view, at 60 seconds) causes periodic refresh; a dashboard
card subscription (no pollingInterval) installs no poll timer at all;
unsubscribing the last polling subscriber clears the poll deadline
synchronously, and a cache whose entries carry no poll deadline issues
no request on any passage of time. -/
theorem C4_polling_only_with_interval
    (s : CacheState) (a : ForecastArgs) (poll : Nat) (e : CacheEntry) (dt : Nat) :
    (getEntry s (serializeForecastArgs a) = none →
      getEntry (subscribe s a 0) (serializeForecastArgs a)
        = some { args := a, status := QStatus.pending, data := none, fetchedAt := none,
                 subs := [0], unusedSince := none, nextPollAt := none })
    ∧ (getEntry s (serializeForecastArgs a) = some e → minPoll (e.subs.erase poll) = 0 →
        getEntry (unsubscribe s a poll) (serializeForecastArgs a)
          = some { e with
                   subs := e.subs.erase poll,
                   unusedSince := if (e.subs.erase poll).isEmpty then some s.now else e.unusedSince,
                   nextPollAt := none })
    ∧ ((∀ x ∈ s.entries, x.nextPollAt = none) → (tick s dt).fetchLog = s.fetchLog)
    ∧ c4DetailState.fetchLog.length = 2
    ∧ c4CancelState.fetchLog.length = 1
    ∧ (getEntry c4CancelState (serializeForecastArgs (detailArgs "Paris"))).map
        CacheEntry.nextPollAt = some none := by
  refine ⟨?_, ?_, ?_, by decide, by decide, by decide⟩
  · intro h
    unfold subscribe
    rw [h]
    unfold getEntry at h ⊢
    simp only
    rw [List.find?_append, h]
    simp [entryKey]
  · intro h hmin
    have hkey := entryKey_of_getEntry s (serializeForecastArgs a) e h
    unfold unsubscribe
    rw [h]
    simp only [setEntry, getEntry]
    unfold getEntry at h
    rw [find_replaceOrAppend s.entries (serializeForecastArgs a) e _ h
      (by simpa [entryKey] using hkey)]
    simp [newPollDeadline, hmin]
  · intro h
    simp [tick, tick_no_poll_entries s.entries (s.now + dt) h]

/-- Cache state just before the detail view for Paris unsubscribes. -/
def c4UnsubPre : CacheState :=
  fulfill (subscribe initState (detailArgs "Paris") 60) (detailArgs "Paris") { temp_c := 10 }

/-- The Paris entry held in c4UnsubPre. -/
def c4ParisEntry : CacheEntry :=
  { args := detailArgs "Paris", status := QStatus.fulfilled, data := some { temp_c := 10 },
    fetchedAt := some 0, subs := [60], unusedSince := none, nextPollAt := some 60 }

/-- C4 witness: a card subscription for Rome creates an entry with no
poll timer; unsubscribing the detail view's sole polling subscriber for
Paris clears the poll deadline; and a tick over a cache with no poll
deadlines issues nothing. -/
theorem C4_witness :
    getEntry (subscribe initState (cardArgs "Rome") 0) (serializeForecastArgs (cardArgs "Rome"))
      = some { args := cardArgs "Rome", status := QStatus.pending, data := none,
               fetchedAt := none, subs := [0], unusedSince := none, nextPollAt := none }
    ∧ getEntry (unsubscribe c4UnsubPre (detailArgs "Paris") 60)
        (serializeForecastArgs (detailArgs "Paris"))
      = some { c4ParisEntry with
               subs := c4ParisEntry.subs.erase 60,
               unusedSince := if (c4ParisEntry.subs.erase 60).isEmpty then some c4UnsubPre.now
                 else c4ParisEntry.unusedSince,
               nextPollAt := none }
    ∧ (tick c4CardState 100).fetchLog = c4CardState.fetchLog := by
  refine ⟨?_, ?_, ?_⟩
  · exact (C4_polling_only_with_interval initState (cardArgs "Rome") 0 c4ParisEntry 0).1 rfl
  · exact (C4_polling_only_with_interval c4UnsubPre (detailArgs "Paris") 60
      c4ParisEntry 0).2.1 (by decide) (by decide)
  · exact (C4_polling_only_with_interval c4CardState (cardArgs "Rome") 0 c4ParisEntry
      100).2.2.1 (by decide)

/-- Concrete cache run for C8: a card subscribes for lowercase "tokyo"
and the request resolves with temp_c = 19. -/
def c8State : CacheState :=
  fulfill (subscribe initState (cardArgs "tokyo") 0) (cardArgs "tokyo") { temp_c := 19 }

/-- C8 counterexample: cache keys are the exact serialized argument
objects and are case-sensitive — after the fetch for "tokyo" succeeds
with temp_c = 19, the snapshot for "Tokyo" is empty (a different,
nonexistent entry), and a subscriber for "Tokyo" issues its own second
fetch rather than reusing the "tokyo" entry. -/
theorem C8_cex_case_sensitive_cache_keys :
    serializeForecastArgs (cardArgs "tokyo") ≠ serializeForecastArgs (cardArgs "Tokyo")
    ∧ getSnapshot c8State "tokyo" = some { temp_c := 19 }
    ∧ getSnapshot c8State "Tokyo" = none
    ∧ (subscribe c8State (cardArgs "Tokyo") 0).fetchLog.length = 2 := by
  refine ⟨by decide, by decide, by decide, by decide⟩

/-- C8 (amended): a cache key is the exact serialized argument object,
so reads with the identical spelling share the entry — a fulfilled fetch
for some arguments updates exactly the entry under that key, a
same-spelling snapshot returns the payload and a same-spelling
subscribe issues no fetch — while keys differing only in case are
distinct entries (only favorites-list comparisons are
case-insensitive). -/
theorem C8_exact_key_shared_entry
    (s : CacheState) (a : ForecastArgs) (p : Payload) (e : CacheEntry)
    (h : getEntry s (serializeForecastArgs a) = some e) :
    (getEntry (fulfill s a p) (serializeForecastArgs a)
      = some { e with status := QStatus.fulfilled, data := some p, fetchedAt := some s.now })
    ∧ serializeForecastArgs (cardArgs "tokyo") ≠ serializeForecastArgs (cardArgs "Tokyo")
    ∧ getSnapshot c8State "tokyo" = some { temp_c := 19 }
    ∧ (subscribe c8State (cardArgs "tokyo") 0).fetchLog = c8State.fetchLog := by
  refine ⟨?_, by decide, by decide, by decide⟩
  have hkey := entryKey_of_getEntry s (serializeForecastArgs a) e h
  unfold fulfill
  rw [h]
  simp only [setEntry, getEntry]
  unfold getEntry at h
  rw [find_replaceOrAppend s.entries (serializeForecastArgs a) e _ h
    (by simpa [entryKey] using hkey)]

/-- C8 witness: fulfilling the "tokyo" request updates the pending
"tokyo" entry in place. -/
theorem C8_witness :
    getEntry (fulfill (subscribe initState (cardArgs "tokyo") 0) (cardArgs "tokyo")
        { temp_c := 19 }) (serializeForecastArgs (cardArgs "tokyo"))
      = some { args := cardArgs "tokyo", status := QStatus.fulfilled,
               data := some { temp_c := 19 },
               fetchedAt := some (subscribe initState (cardArgs "tokyo") 0).now,
               subs := [0], unusedSince := none, nextPollAt := none } :=
  (C8_exact_key_shared_entry (subscribe initState (cardArgs "tokyo") 0) (cardArgs "tokyo")
      { temp_c := 19 }
      { args := cardArgs "tokyo", status := QStatus.pending, data := none, fetchedAt := none,
        subs := [0], unusedSince := none, nextPollAt := none }
      (by decide)).1

end Weather
